import Mathlib

/-!
Verification of the OMEGA sync tool (`sync.py`, `run_diagnostics.py`)
against its specification.

The Python code is shallowly embedded: pure helpers become Lean
functions; the network is an explicit environment (a map from attempt
index to the outcome the transport layer would produce); observable side
effects (log lines, backoff sleeps) are recorded as explicit event lists.
-/

namespace OmegaSync

/-! ## Chunking (`sync.py`, `chunk_data`, lines 188-190)

`chunk_data(data_list, chunk_size=1000)` yields the slices
`data_list[i:i+chunk_size]` for `i = 0, chunk_size, 2*chunk_size, ...`.
`chunk_size = 0` raises `ValueError` in Python (`range` with step 0);
that error case is modelled as producing no chunks and is excluded by
the positivity hypothesis of every theorem below. -/

def chunk_data {α : Type} : List α → Nat → List (List α)
  | [], _ => []
  | _ :: _, 0 => []
  | a :: l, c + 1 => ((a :: l).take (c + 1)) :: chunk_data (l.drop c) (c + 1)
termination_by l _ => l.length
decreasing_by
  simp [List.length_drop]
  omega

theorem chunk_data_nil {α : Type} (C : Nat) : chunk_data ([] : List α) C = [] := by
  simp [chunk_data]

theorem chunk_data_cons {α : Type} (a : α) (l : List α) (c : Nat) :
    chunk_data (a :: l) (c + 1) = ((a :: l).take (c + 1)) :: chunk_data (l.drop c) (c + 1) := by
  rw [chunk_data]

theorem chunk_data_flatten {α : Type} (l : List α) (C : Nat) :
    0 < C → (chunk_data l C).flatten = l := by
  induction l, C using chunk_data.induct with
  | case1 C => intro _; simp [chunk_data]
  | case2 => intro h; exact absurd h (by omega)
  | case3 a l c ih =>
    intro _
    rw [chunk_data_cons, List.flatten_cons, ih (Nat.succ_pos c)]
    exact List.take_append_drop (c + 1) (a :: l)

theorem chunk_data_length {α : Type} (l : List α) (C : Nat) :
    0 < C → (chunk_data l C).length = (l.length + C - 1) / C := by
  induction l, C using chunk_data.induct with
  | case1 C =>
    intro hC
    rw [chunk_data_nil]
    simp only [List.length_nil]
    rw [Nat.div_eq_of_lt (by omega)]
  | case2 => intro h; exact absurd h (by omega)
  | case3 a l c ih =>
    intro _
    rw [chunk_data_cons]
    simp only [List.length_cons]
    rw [ih (Nat.succ_pos c), List.length_drop]
    rcases Nat.lt_or_ge l.length c with h | h
    · have h1 : l.length - c + (c + 1) - 1 = c := by omega
      have h2 : l.length + 1 + (c + 1) - 1 = l.length + c + 1 := by omega
      have e1 : c / (c + 1) = 0 := Nat.div_eq_of_lt (by omega)
      have e2 : (l.length + c + 1) / (c + 1) = 1 :=
        Nat.div_eq_of_lt_le (by omega) (by omega)
      rw [h1, h2, e1, e2]
    · have h1 : l.length - c + (c + 1) - 1 = l.length := by omega
      have h2 : l.length + 1 + (c + 1) - 1 = l.length + (c + 1) := by omega
      rw [h1, h2, Nat.add_div_right _ (Nat.succ_pos c)]

theorem chunk_data_ne_nil {α : Type} (l : List α) (C : Nat) (hC : 0 < C) (hl : l ≠ []) :
    chunk_data l C ≠ [] := by
  cases l with
  | nil => exact absurd rfl hl
  | cons a l =>
    cases C with
    | zero => exact absurd hC (by omega)
    | succ c =>
      rw [chunk_data_cons]
      exact List.cons_ne_nil _ _

theorem chunk_data_dropLast {α : Type} (l : List α) (C : Nat) :
    0 < C → ∀ ch ∈ (chunk_data l C).dropLast, ch.length = C := by
  induction l, C using chunk_data.induct with
  | case1 C => intro _; simp [chunk_data]
  | case2 => intro h; exact absurd h (by omega)
  | case3 a l c ih =>
    intro _
    rw [chunk_data_cons]
    by_cases hnil : l.drop c = []
    · rw [hnil, chunk_data_nil]
      simp
    · have hne : chunk_data (l.drop c) (c + 1) ≠ [] :=
        chunk_data_ne_nil _ _ (Nat.succ_pos c) hnil
      rw [List.dropLast_cons_of_ne_nil hne]
      intro ch hch
      rcases List.mem_cons.mp hch with h | h
      · have hlen : c < l.length := by
          by_contra hh
          exact hnil (List.drop_eq_nil_of_le (by omega))
        subst h
        simp only [List.length_take, List.length_cons]
        omega
      · exact ih (Nat.succ_pos c) ch h

theorem chunk_data_getLast {α : Type} (l : List α) (C : Nat) :
    0 < C → l ≠ [] →
    ∃ last, (chunk_data l C).getLast? = some last ∧
      last.length = (if l.length % C = 0 then C else l.length % C) := by
  induction l, C using chunk_data.induct with
  | case1 C => intro _ h; exact absurd rfl h
  | case2 => intro h; exact absurd h (by omega)
  | case3 a l c ih =>
    intro _ _
    rw [chunk_data_cons]
    by_cases hnil : l.drop c = []
    · have hlen : l.length ≤ c := by
        by_contra hh
        have : l.drop c ≠ [] := by
          apply List.ne_nil_of_length_pos
          rw [List.length_drop]
          omega
        exact this hnil
      rw [hnil, chunk_data_nil]
      refine ⟨(a :: l).take (c + 1), rfl, ?_⟩
      simp only [List.length_take, List.length_cons]
      rcases Nat.lt_or_ge (l.length + 1) (c + 1) with hlt | hge
      · have hmod : (l.length + 1) % (c + 1) = l.length + 1 := Nat.mod_eq_of_lt hlt
        rw [hmod]
        have : ¬ (l.length + 1 = 0) := by omega
        simp only [if_neg this]
        omega
      · have heq : l.length + 1 = c + 1 := by omega
        rw [heq]
        simp [Nat.mod_self]
    · have hne : chunk_data (l.drop c) (c + 1) ≠ [] :=
        chunk_data_ne_nil _ _ (Nat.succ_pos c) hnil
      have hlen : c < l.length := by
        by_contra hh
        exact hnil (List.drop_eq_nil_of_le (by omega))
      obtain ⟨last, hlast, hlastlen⟩ := ih (Nat.succ_pos c) hnil
      refine ⟨last, ?_, ?_⟩
      · rw [List.getLast?_cons, hlast]
        rfl
      · rw [hlastlen, List.length_drop]
        have hmod : (l.length + 1) % (c + 1) = (l.length - c) % (c + 1) := by
          have := Nat.mod_eq_sub_mod (a := l.length + 1) (b := c + 1) (by omega)
          rw [this]
          congr 1
          omega
        simp only [List.length_cons, hmod]

/-! ## Batch transfer engine (`sync.py`, `sync_data_to_api`, lines 166-270)

The network is an environment: for each chunk, a map from attempt index
to the outcome the transport layer produces for that attempt.  The
per-attempt `try` block (lines 218-248) may raise a Python exception
(transport error from `requests.post`, or a JSON decode error from
`response.json()` on line 227); the surrounding `except Exception`
handler (lines 250-253) catches it.  Observable side effects are
recorded as events. -/

/-- Parsed JSON body of a sync response.  `success` models
`response_data.get('success', False)` (absent key defaults to `False`);
`error` and `validation_errors` model the optional keys read on
lines 233-237. -/
structure RespBody where
  success : Bool
  error : Option String
  validation_errors : Option (List String)
deriving DecidableEq

/-- What the transport layer does for one `requests.post` call:
either an HTTP response (with status code and a body that may or may not
parse as JSON), or a raised transport-level exception. -/
inductive AttemptOutcome
  | httpResponse (status : Nat) (body : Option RespBody)
  | transportError (msg : String)
deriving DecidableEq

/-- Python exceptions that can propagate inside one retry attempt. -/
inductive PyExn
  | jsonDecodeError
  | requestError (msg : String)
deriving DecidableEq

/-- Observable side effects of one retry attempt. -/
inductive Event
  /-- Line 232-237: `⚠️ API Error: ...` plus at most the first two
  validation errors (`[:2]`). -/
  | logApiError (err : String) (valErrs : Option (List String))
  /-- Lines 239-247: `⚠️ Retry k/3 (Status: s)` plus error details. -/
  | logRetryStatus (attempt status : Nat)
  /-- Lines 251-252: `⚠️ Retry k/3 (Error: msg)`. -/
  | logRetryExc (attempt : Nat) (msg : String)
  /-- Line 248 / 253: `time.sleep(2)`. -/
  | sleep2
deriving DecidableEq

/-- `response.json()` (line 227): parse failure raises. -/
def response_json (body : Option RespBody) : Except PyExn RespBody :=
  match body with
  | some rd => Except.ok rd
  | none => Except.error PyExn.jsonDecodeError

/-- The `try` block of one retry attempt (lines 218-248): returns
whether `success` was set (with the events emitted), or the exception
that escaped the block. -/
def attemptTry (attempt : Nat) (o : AttemptOutcome) : Except PyExn (Bool × List Event) :=
  match o with
  | AttemptOutcome.transportError msg => Except.error (PyExn.requestError msg)
  | AttemptOutcome.httpResponse status body =>
    if status = 200 then
      match response_json body with
      | Except.error e => Except.error e
      | Except.ok rd =>
        if rd.success then Except.ok (true, [])
        else
          Except.ok (false,
            [Event.logApiError (rd.error.getD "Unknown error")
              (rd.validation_errors.map (fun es => es.take 2))])
    else
      Except.ok (false, [Event.logRetryStatus attempt status, Event.sleep2])

/-- Message carried by a caught exception (`str(e)` on line 252). -/
def excMessage : PyExn → String
  | PyExn.jsonDecodeError => "Expecting value"
  | PyExn.requestError m => m

/-- One retry attempt, `try` block plus the `except Exception` handler
(lines 250-253): the handler logs the retry and sleeps 2 seconds. -/
def attemptStep (attempt : Nat) (o : AttemptOutcome) : Bool × List Event :=
  match attemptTry attempt o with
  | Except.ok r => r
  | Except.error e =>
    (false, [Event.logRetryExc attempt (excMessage e), Event.sleep2])

/-- Environment of one chunk transfer: outcome of each attempt index. -/
abbrev ChunkEnv := Nat → AttemptOutcome

/-- The `for retry in range(3)` loop (lines 217-253), started at attempt
index `i` with `fuel` iterations remaining.  Returns the final value of
`success`, the number of attempts issued, and the events emitted. -/
def runRetries (env : ChunkEnv) : Nat → Nat → Bool × Nat × List Event
  | _, 0 => (false, 0, [])
  | i, fuel + 1 =>
    let r := attemptStep i (env i)
    if r.1 then (true, 1, r.2)
    else
      let rest := runRetries env (i + 1) fuel
      (rest.1, rest.2.1 + 1, r.2 ++ rest.2.2)

/-- One chunk transfer: 3 attempts (`range(3)`, line 217), reporting
success, attempts issued and events (the spec's `transferChunk`). -/
def transferChunk (env : ChunkEnv) : Bool × Nat × List Event :=
  runRetries env 0 3

/-- The per-table chunk loop (lines 204-261), one environment per chunk
(the spec's `transferTable`).  Returns success and the number of chunks
for which a transfer was started; `if not success: return False`
(lines 258-261) aborts after the failing chunk. -/
def transferTable : List ChunkEnv → Bool × Nat
  | [] => (true, 0)
  | env :: rest =>
    if (transferChunk env).1 then
      let r := transferTable rest
      (r.1, r.2 + 1)
    else (false, 1)

/-- The outer loop of `sync_data_to_api` over the tables (lines 192-266),
one chunk-environment list per non-empty table present in `data` (a
missing or empty table is skipped by `continue`, i.e. contributes no
entry).  Returns the overall result and, per table reached, the number
of chunks started; `return False` exits the whole function, so no later
table appears in the output. -/
def sync_data_to_api : List (List ChunkEnv) → Bool × List Nat
  | [] => (true, [])
  | t :: rest =>
    let r := transferTable t
    if r.1 then
      let s := sync_data_to_api rest
      (s.1, r.2 :: s.2)
    else (false, [r.2])

theorem runRetries_all_fail (env : ChunkEnv) (fuel : Nat) :
    ∀ i, (∀ j, j < fuel → (attemptStep (i + j) (env (i + j))).1 = false) →
    (runRetries env i fuel).1 = false ∧ (runRetries env i fuel).2.1 = fuel := by
  induction fuel with
  | zero => intro i _; exact ⟨rfl, rfl⟩
  | succ n ih =>
    intro i h
    have h0 : (attemptStep i (env i)).1 = false := by
      have := h 0 (Nat.succ_pos n)
      simpa using this
    have hrest := ih (i + 1) (fun j hj => by
      have e : i + 1 + j = i + (j + 1) := by omega
      rw [e]
      exact h (j + 1) (by omega))
    simp [runRetries, h0, hrest.1, hrest.2]

theorem runRetries_first_success (env : ChunkEnv) (d : Nat) :
    ∀ i fuel, d < fuel →
    (∀ j, j < d → (attemptStep (i + j) (env (i + j))).1 = false) →
    (attemptStep (i + d) (env (i + d))).1 = true →
    (runRetries env i fuel).1 = true ∧ (runRetries env i fuel).2.1 = d + 1 := by
  induction d with
  | zero =>
    intro i fuel hfuel _ hsucc
    cases fuel with
    | zero => omega
    | succ n =>
      have h0 : (attemptStep i (env i)).1 = true := by simpa using hsucc
      simp [runRetries, h0]
  | succ d ih =>
    intro i fuel hfuel hfail hsucc
    cases fuel with
    | zero => omega
    | succ n =>
      have h0 : (attemptStep i (env i)).1 = false := by
        have := hfail 0 (Nat.succ_pos d)
        simpa using this
      have hrest := ih (i + 1) n (by omega)
        (fun j hj => by
          have e : i + 1 + j = i + (j + 1) := by omega
          rw [e]
          exact hfail (j + 1) (by omega))
        (by
          have e : i + 1 + d = i + (d + 1) := by omega
          rw [e]
          exact hsucc)
      simp [runRetries, h0, hrest.1, hrest.2]

theorem transferTable_append_fail (pre post : List ChunkEnv) (c : ChunkEnv)
    (hc : (transferChunk c).1 = false)
    (hpre : ∀ e ∈ pre, (transferChunk e).1 = true) :
    transferTable (pre ++ c :: post) = (false, pre.length + 1) := by
  revert hpre
  induction pre with
  | nil => intro _; simp [transferTable, hc]
  | cons e pre ih =>
    intro hpre
    have he : (transferChunk e).1 = true := hpre e (List.mem_cons_self e pre)
    have hrec := ih (fun x hx => hpre x (List.mem_cons_of_mem e hx))
    simp [transferTable, he, hrec]

/-! ## Claim theorems for the transfer engine -/

/-- C1: chunking a row sequence of length N with chunk size C > 0
produces exactly ceil(N/C) chunks; every chunk except possibly the last
has exactly C rows; the last chunk has N mod C rows (or C when C divides
N); and the concatenation of all chunks in order equals the original
sequence, so no row is duplicated or dropped. -/
theorem chunking_correct {α : Type} (l : List α) (C : Nat) (hC : 0 < C) :
    (chunk_data l C).length = (l.length + C - 1) / C ∧
    (∀ ch ∈ (chunk_data l C).dropLast, ch.length = C) ∧
    (chunk_data l C).flatten = l ∧
    (l ≠ [] → ∃ last, (chunk_data l C).getLast? = some last ∧
      last.length = (if l.length % C = 0 then C else l.length % C)) :=
  ⟨chunk_data_length l C hC, chunk_data_dropLast l C hC, chunk_data_flatten l C hC,
   fun hl => chunk_data_getLast l C hC hl⟩

theorem chunking_correct_witness :
    (0 : Nat) < 2 ∧
    ((chunk_data [1, 2, 3] 2).length = ([1, 2, 3].length + 2 - 1) / 2 ∧
     (∀ ch ∈ (chunk_data [1, 2, 3] 2).dropLast, ch.length = 2) ∧
     (chunk_data [1, 2, 3] 2).flatten = [1, 2, 3] ∧
     (([1, 2, 3] : List Nat) ≠ [] →
       ∃ last, (chunk_data [1, 2, 3] 2).getLast? = some last ∧
         last.length = (if ([1, 2, 3] : List Nat).length % 2 = 0 then 2
           else ([1, 2, 3] : List Nat).length % 2))) :=
  ⟨by decide, chunking_correct [1, 2, 3] 2 (by decide)⟩

/-- Environment whose every attempt yields an HTTP 500 response. -/
def env500 : ChunkEnv := fun _ => AttemptOutcome.httpResponse 500 none

/-- C2: when a chunk fails all 3 delivery attempts, the chunk transfer
reports failure after exactly 3 attempts and the table transfer aborts
immediately: transfers start only for the chunks up to and including
the failing one (none of `post` is reached) and the table transfer
returns failure. -/
theorem chunk_fail_aborts_table (pre post : List ChunkEnv) (c : ChunkEnv)
    (hc : ∀ j, j < 3 → (attemptStep j (c j)).1 = false)
    (hpre : ∀ e ∈ pre, (transferChunk e).1 = true) :
    (transferChunk c).1 = false ∧ (transferChunk c).2.1 = 3 ∧
    transferTable (pre ++ c :: post) = (false, pre.length + 1) := by
  have hfail := runRetries_all_fail c 3 0 (fun j hj => by simpa using hc j hj)
  exact ⟨hfail.1, hfail.2, transferTable_append_fail pre post c hfail.1 hpre⟩

theorem chunk_fail_aborts_table_witness :
    (∀ j, j < 3 → (attemptStep j (env500 j)).1 = false) ∧
    ((transferChunk env500).1 = false ∧ (transferChunk env500).2.1 = 3 ∧
     transferTable ([] ++ env500 :: []) = (false, List.length ([] : List ChunkEnv) + 1)) :=
  ⟨by decide, chunk_fail_aborts_table [] [] env500 (by decide) (by simp)⟩

/-- C4: as soon as an attempt receives HTTP 200 with `success: true`,
the chunk transfer succeeds with no further attempts: if the first `k`
attempts fail and attempt `k` (zero-based) receives `success: true`,
exactly `k + 1` attempts are issued. -/
theorem success_stops_retries (env : ChunkEnv) (k : Nat) (rd : RespBody)
    (hk : k < 3) (henv : env k = AttemptOutcome.httpResponse 200 (some rd))
    (hrd : rd.success = true)
    (hfail : ∀ j, j < k → (attemptStep j (env j)).1 = false) :
    (transferChunk env).1 = true ∧ (transferChunk env).2.1 = k + 1 := by
  have hsucc : (attemptStep k (env k)).1 = true := by
    rw [henv]
    simp [attemptStep, attemptTry, response_json, hrd]
  exact runRetries_first_success env k 0 3 hk
    (fun j hj => by simpa using hfail j hj) (by simpa using hsucc)

/-- Environment: attempts 0 and 1 raise transport errors, attempt 2
returns HTTP 200 with `success: true`. -/
def envTwoFailThenOk : ChunkEnv := fun i =>
  if i < 2 then AttemptOutcome.transportError "Connection aborted"
  else AttemptOutcome.httpResponse 200 (some ⟨true, none, none⟩)

theorem success_stops_retries_witness :
    (2 : Nat) < 3 ∧
    envTwoFailThenOk 2 = AttemptOutcome.httpResponse 200 (some ⟨true, none, none⟩) ∧
    RespBody.success ⟨true, none, none⟩ = true ∧
    (∀ j, j < 2 → (attemptStep j (envTwoFailThenOk j)).1 = false) ∧
    ((transferChunk envTwoFailThenOk).1 = true ∧
     (transferChunk envTwoFailThenOk).2.1 = 2 + 1) :=
  ⟨by decide, by decide, rfl, by decide,
   success_stops_retries envTwoFailThenOk 2 ⟨true, none, none⟩ (by decide) (by decide)
     rfl (by decide)⟩

/-- C9: a chunk failure aborts the entire run, not only its table: when
some table's transfer fails, `sync_data_to_api` returns failure and the
per-table chunk counts cover only the tables up to and including the
failing one — no chunk of any table in `post` is ever transferred. -/
theorem table_fail_aborts_run (pre post : List (List ChunkEnv)) (t : List ChunkEnv)
    (hpre : ∀ x ∈ pre, (transferTable x).1 = true)
    (ht : (transferTable t).1 = false) :
    sync_data_to_api (pre ++ t :: post) =
      (false, pre.map (fun x => (transferTable x).2) ++ [(transferTable t).2]) := by
  revert hpre
  induction pre with
  | nil => intro _; simp [sync_data_to_api, ht]
  | cons x pre ih =>
    intro hpre
    have hx := hpre x (List.mem_cons_self x pre)
    have hrec := ih (fun y hy => hpre y (List.mem_cons_of_mem x hy))
    simp [sync_data_to_api, hx, hrec]

theorem table_fail_aborts_run_witness :
    (∀ x ∈ ([] : List (List ChunkEnv)), (transferTable x).1 = true) ∧
    (transferTable [env500]).1 = false ∧
    sync_data_to_api ([] ++ [env500] :: [[env500]]) =
      (false, List.map (fun x => (transferTable x).2) [] ++ [(transferTable [env500]).2]) :=
  ⟨by simp, by decide, table_fail_aborts_run [] [[env500]] [env500] (by simp) (by decide)⟩

/-- A 200-response body with `success: false`, an error message and
three validation errors. -/
def respRejected : RespBody :=
  ⟨false, some "Invalid data", some ["err1", "err2", "err3"]⟩

/-- Environment whose every attempt yields HTTP 200 with
`success: false` (the remote deterministically rejects the payload). -/
def envRejected : ChunkEnv :=
  fun _ => AttemptOutcome.httpResponse 200 (some respRejected)

/-- C3 counterexample: on an environment where every attempt receives
HTTP 200 with `success: false`, all 3 retry attempts are consumed but
the run performs no 2-second backoff at all — the `success: false`
branch (lines 231-237) never reaches `time.sleep(2)`, contrary to the
claim that the engine waits the fixed backoff interval before the next
attempt exactly as for transport-level failures. -/
theorem softFail_backoff_counterexample :
    (transferChunk envRejected).1 = false ∧
    (transferChunk envRejected).2.1 = 3 ∧
    Event.sleep2 ∉ (transferChunk envRejected).2.2 := by decide

/-- C3 amended: for every chunk-transfer attempt that receives an HTTP
200 response whose body indicates `success: false`, the engine logs the
error and at most the first two validation errors and consumes one
retry attempt, but — unlike for transport-level failures — performs no
2-second backoff before the next attempt. -/
theorem softFail_consumes_attempt_no_backoff (i fuel : Nat) (env : ChunkEnv)
    (rd : RespBody) (hrd : rd.success = false)
    (henv : env i = AttemptOutcome.httpResponse 200 (some rd)) :
    attemptStep i (env i) =
      (false, [Event.logApiError (rd.error.getD "Unknown error")
        (rd.validation_errors.map (fun es => es.take 2))]) ∧
    Event.sleep2 ∉ (attemptStep i (env i)).2 ∧
    (runRetries env i (fuel + 1)).1 = (runRetries env (i + 1) fuel).1 ∧
    (runRetries env i (fuel + 1)).2.1 = (runRetries env (i + 1) fuel).2.1 + 1 := by
  have hstep : attemptStep i (env i) =
      (false, [Event.logApiError (rd.error.getD "Unknown error")
        (rd.validation_errors.map (fun es => es.take 2))]) := by
    rw [henv]
    simp [attemptStep, attemptTry, response_json, hrd]
  refine ⟨hstep, ?_, ?_, ?_⟩
  · rw [hstep]
    simp
  · simp [runRetries, hstep]
  · simp [runRetries, hstep]

theorem softFail_consumes_attempt_no_backoff_witness :
    respRejected.success = false ∧
    envRejected 0 = AttemptOutcome.httpResponse 200 (some respRejected) ∧
    (attemptStep 0 (envRejected 0) =
      (false, [Event.logApiError (respRejected.error.getD "Unknown error")
        (respRejected.validation_errors.map (fun es => es.take 2))]) ∧
     Event.sleep2 ∉ (attemptStep 0 (envRejected 0)).2 ∧
     (runRetries envRejected 0 (2 + 1)).1 = (runRetries envRejected (0 + 1) 2).1 ∧
     (runRetries envRejected 0 (2 + 1)).2.1 = (runRetries envRejected (0 + 1) 2).2.1 + 1) :=
  ⟨rfl, rfl, softFail_consumes_attempt_no_backoff 0 2 envRejected respRejected rfl rfl⟩

/-- C10: an HTTP 200 response whose body is not parseable as JSON does
not crash the run and does not succeed: `response.json()` raises a
decode error inside the `try` block, which the generic
`except Exception` handler catches; the attempt counts as one failed
retry, and its 2-second backoff precedes every event of the next
attempt. -/
theorem badJson_is_caught_and_retried (i fuel : Nat) (env : ChunkEnv)
    (henv : env i = AttemptOutcome.httpResponse 200 none) :
    attemptTry i (env i) = Except.error PyExn.jsonDecodeError ∧
    attemptStep i (env i) =
      (false, [Event.logRetryExc i (excMessage PyExn.jsonDecodeError), Event.sleep2]) ∧
    (runRetries env i (fuel + 1)).1 = (runRetries env (i + 1) fuel).1 ∧
    (runRetries env i (fuel + 1)).2.1 = (runRetries env (i + 1) fuel).2.1 + 1 ∧
    (runRetries env i (fuel + 1)).2.2 =
      [Event.logRetryExc i (excMessage PyExn.jsonDecodeError), Event.sleep2] ++
        (runRetries env (i + 1) fuel).2.2 := by
  have htry : attemptTry i (env i) = Except.error PyExn.jsonDecodeError := by
    rw [henv]
    simp [attemptTry, response_json]
  have hstep : attemptStep i (env i) =
      (false, [Event.logRetryExc i (excMessage PyExn.jsonDecodeError), Event.sleep2]) := by
    simp [attemptStep, htry]
  refine ⟨htry, hstep, ?_, ?_, ?_⟩
  · simp [runRetries, hstep]
  · simp [runRetries, hstep]
  · simp [runRetries, hstep]

/-- Environment whose every attempt yields HTTP 200 with a body that is
not parseable as JSON. -/
def envBadJson : ChunkEnv := fun _ => AttemptOutcome.httpResponse 200 none

theorem badJson_is_caught_and_retried_witness :
    envBadJson 0 = AttemptOutcome.httpResponse 200 none ∧
    (attemptTry 0 (envBadJson 0) = Except.error PyExn.jsonDecodeError ∧
     attemptStep 0 (envBadJson 0) =
       (false, [Event.logRetryExc 0 (excMessage PyExn.jsonDecodeError), Event.sleep2]) ∧
     (runRetries envBadJson 0 (2 + 1)).1 = (runRetries envBadJson (0 + 1) 2).1 ∧
     (runRetries envBadJson 0 (2 + 1)).2.1 = (runRetries envBadJson (0 + 1) 2).2.1 + 1 ∧
     (runRetries envBadJson 0 (2 + 1)).2.2 =
       [Event.logRetryExc 0 (excMessage PyExn.jsonDecodeError), Event.sleep2] ++
         (runRetries envBadJson (0 + 1) 2).2.2) :=
  ⟨rfl, badJson_is_caught_and_retried 0 2 envBadJson rfl⟩

/-! ## Value normalizer (`sync.py`, `DecimalEncoder`, lines 13-21)

`json.dumps(payload, cls=DecimalEncoder)` (line 221) serializes each
scalar: JSON-native values (string, integer, float, boolean, null) are
emitted directly by the base encoder; non-native values reach
`DecimalEncoder.default`, which maps `Decimal` to `float(obj)`,
`date`/`datetime` to `obj.isoformat()`.  Numeric values are modelled as
exact rationals (`float` of a `Decimal` rounds to the nearest binary
double; the instances the spec exercises, such as `12.50`, are exactly
representable, and the mapping below keeps the numeric value). -/

/-- A scalar value as it appears in a fetched row. -/
inductive PyValue
  | pyStr (s : String)
  | pyInt (n : Int)
  | pyFloat (q : Rat)
  | pyBool (b : Bool)
  | pyNone
  | pyDecimal (q : Rat)
  | pyDate (y m d : Nat)
  | pyDatetime (y m d hh mi ss : Nat)
deriving DecidableEq

/-- Zero-pad a number to two digits, as in `date.isoformat`. -/
def pad2 (n : Nat) : String :=
  if n < 10 then "0" ++ toString n else toString n

/-- Zero-pad a year to four digits, as in `date.isoformat`. -/
def pad4 (n : Nat) : String :=
  if n < 10 then "000" ++ toString n
  else if n < 100 then "00" ++ toString n
  else if n < 1000 then "0" ++ toString n
  else toString n

/-- `date.isoformat()`: `YYYY-MM-DD` (line 18). -/
def date_isoformat (y m d : Nat) : String :=
  pad4 y ++ "-" ++ pad2 m ++ "-" ++ pad2 d

/-- `datetime.isoformat()` at second granularity:
`YYYY-MM-DDTHH:MM:SS` (line 20). -/
def datetime_isoformat (y m d hh mi ss : Nat) : String :=
  date_isoformat y m d ++ "T" ++ pad2 hh ++ ":" ++ pad2 mi ++ ":" ++ pad2 ss

/-- Effect of serialization with `DecimalEncoder` on one scalar:
`Decimal → float(obj)`, `date → obj.isoformat()`,
`datetime → obj.isoformat()` (the three branches of
`DecimalEncoder.default`, lines 15-20); JSON-native values never reach
`default` and pass through unchanged. -/
def normalizeValue : PyValue → PyValue
  | PyValue.pyDecimal q => PyValue.pyFloat q
  | PyValue.pyDate y m d => PyValue.pyStr (date_isoformat y m d)
  | PyValue.pyDatetime y m d hh mi ss =>
      PyValue.pyStr (datetime_isoformat y m d hh mi ss)
  | v => v

/-- C5: the value normalizer maps every arbitrary-precision decimal to
the floating-point number of the same value (12.50 to 12.5), every
calendar date to its ISO-8601 date string (2024-03-15 to
"2024-03-15"), every timestamp to its ISO-8601 datetime string, and is
the identity on every JSON-native value (string, integer, boolean,
null), so normalization is idempotent. -/
theorem normalizeValue_spec :
    (∀ q : Rat, normalizeValue (PyValue.pyDecimal q) = PyValue.pyFloat q) ∧
    (∀ y m d : Nat, normalizeValue (PyValue.pyDate y m d) =
      PyValue.pyStr (date_isoformat y m d)) ∧
    (∀ y m d hh mi ss : Nat, normalizeValue (PyValue.pyDatetime y m d hh mi ss) =
      PyValue.pyStr (datetime_isoformat y m d hh mi ss)) ∧
    (∀ s : String, normalizeValue (PyValue.pyStr s) = PyValue.pyStr s) ∧
    (∀ n : Int, normalizeValue (PyValue.pyInt n) = PyValue.pyInt n) ∧
    (∀ b : Bool, normalizeValue (PyValue.pyBool b) = PyValue.pyBool b) ∧
    normalizeValue PyValue.pyNone = PyValue.pyNone ∧
    (∀ v : PyValue, normalizeValue (normalizeValue v) = normalizeValue v) ∧
    normalizeValue (PyValue.pyDecimal (1250 / 100 : Rat)) =
      PyValue.pyFloat (125 / 10 : Rat) ∧
    normalizeValue (PyValue.pyDate 2024 3 15) = PyValue.pyStr "2024-03-15" := by
  refine ⟨fun q => rfl, fun y m d => rfl, fun y m d hh mi ss => rfl,
    fun s => rfl, fun n => rfl, fun b => rfl, rfl, fun v => ?_, ?_, ?_⟩
  · cases v <;> rfl
  · have h : (1250 / 100 : Rat) = (125 / 10 : Rat) := by norm_num
    rw [h]
    rfl
  · rfl

/-! ## Diagnostics probe (`run_diagnostics.py`, `test_api_endpoints`,
lines 40-160)

Each endpoint probe either gets an HTTP response or raises a
transport-level exception; the probe classifies it (lines 68-129) and
the summary returns `len(errors) == 0` (lines 136-156). -/

/-- The fixed list of 8 probed endpoint/method/description triples
(lines 54-63). -/
def endpoints : List (String × String × String) :=
  [("/api/sync/products/clear", "DELETE", "Clear products"),
   ("/api/sync/products", "POST", "Sync products"),
   ("/api/sync/productbatches/clear", "DELETE", "Clear product batches"),
   ("/api/sync/productbatches", "POST", "Sync product batches"),
   ("/api/sync/masters/clear", "DELETE", "Clear masters"),
   ("/api/sync/masters", "POST", "Sync masters"),
   ("/api/sync/users/clear", "DELETE", "Clear users"),
   ("/api/sync/users", "POST", "Sync users")]

/-- What the transport layer does for one probe request. -/
inductive ProbeOutcome
  | response (status : Nat) (text : String)
  | timeout
  | connectionError
  | otherError (msg : String)
deriving DecidableEq

/-- One entry of `results` (lines 92-98 / 108-129). `status_code` is
`none` on the exception paths, which omit the key. -/
structure EndpointResult where
  endpoint : String
  method : String
  status : String
  status_code : Option Nat
  debug_mode : Bool
deriving DecidableEq

/-- `needle in haystack` on strings (line 89). -/
def strContains (haystack needle : String) : Bool :=
  haystack.data.tails.any (fun t => needle.data.isPrefixOf t)

/-- The Django debug page marker searched for on line 89. -/
def debugMarker : String := "<code>DEBUG = True</code>"

/-- Probe of one endpoint (lines 68-129): both the DELETE and the POST
branches issue `requests.options`; a response with status < 500 is
AVAILABLE, otherwise ERROR; a timeout, connection error or other
exception is classified by the matching handler. -/
def probeEndpoint (ep : String × String × String) (o : ProbeOutcome) : EndpointResult :=
  match o with
  | ProbeOutcome.response s text =>
    { endpoint := ep.1, method := ep.2.1,
      status := if s < 500 then "AVAILABLE" else "ERROR",
      status_code := some s,
      debug_mode := strContains text debugMarker }
  | ProbeOutcome.timeout =>
    { endpoint := ep.1, method := ep.2.1, status := "TIMEOUT",
      status_code := none, debug_mode := false }
  | ProbeOutcome.connectionError =>
    { endpoint := ep.1, method := ep.2.1, status := "CONNECTION ERROR",
      status_code := none, debug_mode := false }
  | ProbeOutcome.otherError msg =>
    { endpoint := ep.1, method := ep.2.1, status := "ERROR: " ++ msg,
      status_code := none, debug_mode := false }

/-- `test_api_endpoints`: probe each of the 8 endpoints with the
outcome the transport produces for it, and return
`len(errors) == 0` (line 156) together with `results`. -/
def test_api_endpoints (outcomes : List ProbeOutcome) : Bool × List EndpointResult :=
  let results := (endpoints.zip outcomes).map (fun p => probeEndpoint p.1 p.2)
  (((results.filter (fun r => r.status != "AVAILABLE")).length == 0), results)

/-- The HTTP verb actually sent when probing an endpoint declared with
`method` (lines 73-85): both branches call `requests.options`. -/
def requestVerbSent (method : String) : Option String :=
  if method = "DELETE" then some "OPTIONS"
  else if method = "POST" then some "OPTIONS"
  else none

theorem all_available_iff (rs : List EndpointResult) :
    (((rs.filter (fun r => r.status != "AVAILABLE")).length == 0) = true) ↔
    ∀ r ∈ rs, r.status = "AVAILABLE" := by
  rw [beq_iff_eq, List.length_eq_zero, List.filter_eq_nil_iff]
  simp

/-- Default result used by the bounds-free indexing in the C6 claim. -/
def defaultResult : EndpointResult :=
  { endpoint := "", method := "", status := "", status_code := none, debug_mode := false }

/-- C6: given the 8 probe outcomes, each endpoint is classified
AVAILABLE when its probe response has status < 500, ERROR when
status ≥ 500, TIMEOUT on a transport-level timeout, and
CONNECTION ERROR on a transport-level connection failure (the spec's
`CONNECTION_ERROR`); and the probe's overall boolean is true iff every
endpoint's result is AVAILABLE. -/
theorem probe_classification (outcomes : List ProbeOutcome)
    (hlen : outcomes.length = 8) :
    (test_api_endpoints outcomes).2.length = 8 ∧
    (∀ i, i < 8 →
      ((test_api_endpoints outcomes).2.getD i defaultResult).status =
        (match outcomes.getD i ProbeOutcome.timeout with
         | ProbeOutcome.response s _ => if s < 500 then "AVAILABLE" else "ERROR"
         | ProbeOutcome.timeout => "TIMEOUT"
         | ProbeOutcome.connectionError => "CONNECTION ERROR"
         | ProbeOutcome.otherError m => "ERROR: " ++ m)) ∧
    ((test_api_endpoints outcomes).1 = true ↔
      ∀ r ∈ (test_api_endpoints outcomes).2, r.status = "AVAILABLE") := by
  rcases outcomes with _ | ⟨o0, _ | ⟨o1, _ | ⟨o2, _ | ⟨o3, _ | ⟨o4, _ | ⟨o5,
    _ | ⟨o6, _ | ⟨o7, _ | ⟨o8, rest⟩⟩⟩⟩⟩⟩⟩⟩⟩ <;> simp only [List.length_cons,
      List.length_nil] at hlen <;> try omega
  refine ⟨rfl, ?_, all_available_iff _⟩
  intro i hi
  interval_cases i
  · cases o0 <;> rfl
  · cases o1 <;> rfl
  · cases o2 <;> rfl
  · cases o3 <;> rfl
  · cases o4 <;> rfl
  · cases o5 <;> rfl
  · cases o6 <;> rfl
  · cases o7 <;> rfl

theorem probe_classification_witness :
    ([ProbeOutcome.response 200 "", ProbeOutcome.response 503 "",
      ProbeOutcome.timeout, ProbeOutcome.connectionError,
      ProbeOutcome.response 404 "", ProbeOutcome.response 200 "",
      ProbeOutcome.response 200 "", ProbeOutcome.response 200 ""].length = 8) ∧
    ((test_api_endpoints [ProbeOutcome.response 200 "", ProbeOutcome.response 503 "",
        ProbeOutcome.timeout, ProbeOutcome.connectionError,
        ProbeOutcome.response 404 "", ProbeOutcome.response 200 "",
        ProbeOutcome.response 200 "", ProbeOutcome.response 200 ""]).2.length = 8 ∧
     (∀ i, i < 8 →
       ((test_api_endpoints [ProbeOutcome.response 200 "", ProbeOutcome.response 503 "",
           ProbeOutcome.timeout, ProbeOutcome.connectionError,
           ProbeOutcome.response 404 "", ProbeOutcome.response 200 "",
           ProbeOutcome.response 200 "", ProbeOutcome.response 200 ""]).2.getD i
             defaultResult).status =
         (match [ProbeOutcome.response 200 "", ProbeOutcome.response 503 "",
             ProbeOutcome.timeout, ProbeOutcome.connectionError,
             ProbeOutcome.response 404 "", ProbeOutcome.response 200 "",
             ProbeOutcome.response 200 "", ProbeOutcome.response 200 ""].getD i
               ProbeOutcome.timeout with
          | ProbeOutcome.response s _ => if s < 500 then "AVAILABLE" else "ERROR"
          | ProbeOutcome.timeout => "TIMEOUT"
          | ProbeOutcome.connectionError => "CONNECTION ERROR"
          | ProbeOutcome.otherError m => "ERROR: " ++ m)) ∧
     ((test_api_endpoints [ProbeOutcome.response 200 "", ProbeOutcome.response 503 "",
         ProbeOutcome.timeout, ProbeOutcome.connectionError,
         ProbeOutcome.response 404 "", ProbeOutcome.response 200 "",
         ProbeOutcome.response 200 "", ProbeOutcome.response 200 ""]).1 = true ↔
       ∀ r ∈ (test_api_endpoints [ProbeOutcome.response 200 "",
           ProbeOutcome.response 503 "", ProbeOutcome.timeout,
           ProbeOutcome.connectionError, ProbeOutcome.response 404 "",
           ProbeOutcome.response 200 "", ProbeOutcome.response 200 "",
           ProbeOutcome.response 200 ""]).2, r.status = "AVAILABLE")) :=
  ⟨rfl, probe_classification _ rfl⟩

/-- C7: the diagnostics probe never issues a destructive request: for
each of the 8 fixed endpoint/method pairs, including every DELETE-style
clear endpoint, the request actually sent is an OPTIONS request, never
the declared (destructive) verb. -/
theorem probe_sends_only_options :
    endpoints.length = 8 ∧
    (endpoints.all (fun ep => requestVerbSent ep.2.1 == some "OPTIONS")) = true ∧
    (endpoints.all (fun ep => requestVerbSent ep.2.1 != some ep.2.1)) = true := by
  decide

/-! ## Run lifecycle (`sync.py`, `main`, lines 273-337)

`main` wraps the run in `try ... except KeyboardInterrupt ... except
Exception`; `conn.close()` (line 291) is executed only on the straight
path, with no `finally`.  The paths before `connect_to_database`
returns (config or connection failure) exit before a connection exists
and are out of scope of the claim.  A step's behaviour is what the
external world makes it do: return normally, raise KeyboardInterrupt
(not caught inside `fetch_data`/`sync_data_to_api` — their local
handlers catch `pyodbc.Error` resp. `Exception` only, and
`KeyboardInterrupt` derives from `BaseException`), or raise an
unexpected exception. -/

/-- Behaviour of one step of `main` as driven by the environment. -/
inductive StepResult (α : Type)
  | ok (a : α)
  | interrupt
  | exc (msg : String)

/-- Environment of one run that got past `connect_to_database`:
what `fetch_data` does, and what `sync_data_to_api` does (its own
`except Exception` means a normal return carries a `Bool`; `exc` here
is an exception it does not catch, e.g. `KeyboardInterrupt`'s class
siblings). -/
structure MainEnv where
  fetch : StepResult Unit
  sync : StepResult Bool

/-- Observable outcome of `main`: the process exit code and whether
`conn.close()` (line 291) executed before exiting. -/
structure MainResult where
  exitCode : Nat
  connClosed : Bool
deriving DecidableEq

/-- `main` (lines 273-337) after a successful `connect_to_database`:
an exception or interrupt in `fetch_data` or `sync_data_to_api` jumps
to the handlers on lines 325-337, skipping `conn.close()`; on normal
completion `conn.close()` runs and the exit code reflects the sync
result (lines 291-323). -/
def main_run (env : MainEnv) : MainResult :=
  match env.fetch with
  | StepResult.interrupt => { exitCode := 1, connClosed := false }
  | StepResult.exc _ => { exitCode := 1, connClosed := false }
  | StepResult.ok _ =>
    match env.sync with
    | StepResult.interrupt => { exitCode := 1, connClosed := false }
    | StepResult.exc _ => { exitCode := 1, connClosed := false }
    | StepResult.ok success =>
      if success then { exitCode := 0, connClosed := true }
      else { exitCode := 1, connClosed := true }

/-- C8 counterexample: a user interrupt during `fetch_data` is an exit
path (exit code 1) on which the database connection is never closed —
`main` has no `finally`, and the `except KeyboardInterrupt` handler
(lines 325-328) exits without calling `conn.close()`.  This refutes the
claim that the connection is released on every exit path. -/
theorem conn_close_counterexample :
    main_run { fetch := StepResult.interrupt, sync := StepResult.ok true } =
      { exitCode := 1, connClosed := false } := by
  decide

/-- C8 amended: the database connection is closed before exiting on the
runs where `fetch_data` and `sync_data_to_api` complete normally
(whether the sync succeeded or failed), but on a user interrupt or an
unexpected exception raised after connecting, the process exits (code 1)
without closing the connection. -/
theorem conn_close_on_normal_paths :
    (∀ b : Bool, (main_run { fetch := StepResult.ok (), sync := StepResult.ok b }).connClosed
      = true) ∧
    (main_run { fetch := StepResult.ok (), sync := StepResult.ok true }).exitCode = 0 ∧
    (main_run { fetch := StepResult.ok (), sync := StepResult.ok false }).exitCode = 1 ∧
    (∀ s : StepResult Bool, main_run { fetch := StepResult.interrupt, sync := s } =
      { exitCode := 1, connClosed := false }) ∧
    (∀ (msg : String) (s : StepResult Bool),
      main_run { fetch := StepResult.exc msg, sync := s } =
        { exitCode := 1, connClosed := false }) ∧
    (main_run { fetch := StepResult.ok (), sync := StepResult.interrupt } =
      { exitCode := 1, connClosed := false }) ∧
    (∀ msg : String, main_run { fetch := StepResult.ok (), sync := StepResult.exc msg } =
      { exitCode := 1, connClosed := false }) := by
  refine ⟨fun b => ?_, rfl, rfl, fun s => rfl, fun msg s => rfl, rfl, fun msg => rfl⟩
  cases b <;> rfl

end OmegaSync
